import Mathlib

/-!
# AutoConnect (v0.9.7): configuration object and portal contract

A shallow embedding of `src/AutoConnect.h`.  The header defines the class
`AutoConnectConfig` completely (two constructors, the copy assignment and 22
data members); these are translated member by member.  Of the class
`AutoConnect` the header only declares the interface; the collaborators whose
bodies live in other translation units are modelled from the specification and
are marked as such.
-/

namespace AutoConnect

/-! ## Machine types -/

/-- Conversion of an integer value to `uint8_t`. -/
def toUInt8 (n : Nat) : Nat := n % 2 ^ 8

/-- Conversion of an integer value to `uint16_t`. -/
def toUInt16 (n : Nat) : Nat := n % 2 ^ 16

/-- Conversion of an integer value to `uint32_t`. -/
def toUInt32 (n : Nat) : Nat := n % 2 ^ 32

/-- Conversion of an integer value to a 32-bit `int`. -/
def toInt32 (n : Int) : Int := (n + 2 ^ 31) % 2 ^ 32 - 2 ^ 31

/-- Arduino `IPAddress`: an IPv4 address held as one 32-bit word. -/
structure IPAddress where
  dword : Nat
deriving DecidableEq, Repr

/-- The converting constructor `IPAddress(uint32_t address)`. -/
def IPAddress.ofUInt32 (address : Nat) : IPAddress := ⟨toUInt32 address⟩

/-- The enum `AC_SAVECREDENTIAL_t` (header lines 37-40). -/
inductive AC_SAVECREDENTIAL_t where
  | AC_SAVECREDENTIAL_NEVER
  | AC_SAVECREDENTIAL_AUTO
deriving DecidableEq, Repr

/-- The enum `AC_ONBOOTURI_t` (header lines 42-45). -/
inductive AC_ONBOOTURI_t where
  | AC_ONBOOTURI_ROOT
  | AC_ONBOOTURI_HOME
deriving DecidableEq, Repr

open AC_SAVECREDENTIAL_t AC_ONBOOTURI_t

/-- The macros of `AutoConnectDefs.h` that the constructors of
`AutoConnectConfig` expand.  The defining header is not part of the sources at
hand, so the macro values are a parameter of the embedding.  Numeric macros are
kept as unbounded integers; each constructor converts them to the type of the
member they initialise. -/
structure Defs where
  AUTOCONNECT_AP_IP : Nat
  AUTOCONNECT_AP_GW : Nat
  AUTOCONNECT_AP_NM : Nat
  AUTOCONNECT_APID : String
  AUTOCONNECT_PSK : String
  AUTOCONNECT_AP_CH : Nat
  AC_IDENTIFIER_OFFSET : Nat
  AUTOCONNECT_STARTUPTIME : Int
  AUTOCONNECT_HOMEURI : String
deriving DecidableEq, Repr

/-! ## `class AutoConnectConfig` -/

/-- The data members of `AutoConnectConfig` (header lines 132-153), in
declaration order. -/
structure AutoConnectConfig where
  apip : IPAddress
  gateway : IPAddress
  netmask : IPAddress
  apid : String
  psk : String
  channel : Nat
  hidden : Nat
  autoSave : AC_SAVECREDENTIAL_t
  bootUri : AC_ONBOOTURI_t
  boundaryOffset : Nat
  uptime : Int
  autoRise : Bool
  autoReset : Bool
  autoReconnect : Bool
  immediateStart : Bool
  hostName : String
  homeUri : String
  staip : IPAddress
  staGateway : IPAddress
  staNetmask : IPAddress
  dns1 : IPAddress
  dns2 : IPAddress
deriving DecidableEq, Repr

/-- The default constructor `AutoConnectConfig()` (header lines 54-76). -/
def AutoConnectConfig.new (d : Defs) : AutoConnectConfig where
  apip := IPAddress.ofUInt32 d.AUTOCONNECT_AP_IP
  gateway := IPAddress.ofUInt32 d.AUTOCONNECT_AP_GW
  netmask := IPAddress.ofUInt32 d.AUTOCONNECT_AP_NM
  apid := d.AUTOCONNECT_APID
  psk := d.AUTOCONNECT_PSK
  channel := toUInt8 d.AUTOCONNECT_AP_CH
  hidden := toUInt8 0
  autoSave := AC_SAVECREDENTIAL_AUTO
  bootUri := AC_ONBOOTURI_ROOT
  boundaryOffset := toUInt16 d.AC_IDENTIFIER_OFFSET
  uptime := toInt32 d.AUTOCONNECT_STARTUPTIME
  autoRise := true
  autoReset := true
  autoReconnect := false
  immediateStart := false
  hostName := ""
  homeUri := d.AUTOCONNECT_HOMEURI
  staip := IPAddress.ofUInt32 0
  staGateway := IPAddress.ofUInt32 0
  staNetmask := IPAddress.ofUInt32 0
  dns1 := IPAddress.ofUInt32 0
  dns2 := IPAddress.ofUInt32 0

/-- The constructor `AutoConnectConfig(const char* ap, const char* password,
const uint8_t channel)` (header lines 80-102).  `ap` and `password` are the
character strings the two pointers refer to, from which `String(ap)` and
`String(password)` are built; the argument `channel` is converted to the
parameter type `uint8_t`. -/
def AutoConnectConfig.newAp (d : Defs) (ap password : String) (channel : Nat) :
    AutoConnectConfig where
  apip := IPAddress.ofUInt32 d.AUTOCONNECT_AP_IP
  gateway := IPAddress.ofUInt32 d.AUTOCONNECT_AP_GW
  netmask := IPAddress.ofUInt32 d.AUTOCONNECT_AP_NM
  apid := ap
  psk := password
  channel := toUInt8 channel
  hidden := toUInt8 0
  autoSave := AC_SAVECREDENTIAL_AUTO
  bootUri := AC_ONBOOTURI_ROOT
  boundaryOffset := toUInt16 d.AC_IDENTIFIER_OFFSET
  uptime := toInt32 d.AUTOCONNECT_STARTUPTIME
  autoRise := true
  autoReset := true
  autoReconnect := false
  immediateStart := false
  hostName := ""
  homeUri := d.AUTOCONNECT_HOMEURI
  staip := IPAddress.ofUInt32 0
  staGateway := IPAddress.ofUInt32 0
  staNetmask := IPAddress.ofUInt32 0
  dns1 := IPAddress.ofUInt32 0
  dns2 := IPAddress.ofUInt32 0

/-- The two-argument call `AutoConnectConfig(ap, password)`: the default
argument `channel = AUTOCONNECT_AP_CH` of header line 80 is supplied. -/
def AutoConnectConfig.newApDefaultChannel (d : Defs) (ap password : String) :
    AutoConnectConfig :=
  AutoConnectConfig.newAp d ap password d.AUTOCONNECT_AP_CH

/-- Object identity: the address of an `AutoConnectConfig` object. -/
abbrev Ref := Nat

/-- The objects of type `AutoConnectConfig` alive in memory, by address. -/
abbrev Heap := Ref → AutoConnectConfig

/-- One member assignment `self->m = v`: the object at `self` is replaced by
`f` of itself, every other object is untouched. -/
def Heap.assign (h : Heap) (self : Ref) (f : AutoConnectConfig → AutoConnectConfig) : Heap :=
  fun r => if r = self then f (h r) else h r

/-- The copy assignment `AutoConnectConfig& operator=(const AutoConnectConfig& o)`
(header lines 106-130).  Both operands are references, so the 22 assignments
run one after the other on the heap, each reading `o` as it is at that moment
(`self` and `o` may be the same object).  The result is the returned reference
`*this` together with the heap after the call. -/
def AutoConnectConfig.operator_assign (h : Heap) (self o : Ref) : Ref × Heap :=
  let h := h.assign self (fun c => { c with apip := (h o).apip })
  let h := h.assign self (fun c => { c with gateway := (h o).gateway })
  let h := h.assign self (fun c => { c with netmask := (h o).netmask })
  let h := h.assign self (fun c => { c with apid := (h o).apid })
  let h := h.assign self (fun c => { c with psk := (h o).psk })
  let h := h.assign self (fun c => { c with channel := (h o).channel })
  let h := h.assign self (fun c => { c with hidden := (h o).hidden })
  let h := h.assign self (fun c => { c with autoSave := (h o).autoSave })
  let h := h.assign self (fun c => { c with bootUri := (h o).bootUri })
  let h := h.assign self (fun c => { c with boundaryOffset := (h o).boundaryOffset })
  let h := h.assign self (fun c => { c with uptime := (h o).uptime })
  let h := h.assign self (fun c => { c with autoRise := (h o).autoRise })
  let h := h.assign self (fun c => { c with autoReset := (h o).autoReset })
  let h := h.assign self (fun c => { c with autoReconnect := (h o).autoReconnect })
  let h := h.assign self (fun c => { c with immediateStart := (h o).immediateStart })
  let h := h.assign self (fun c => { c with hostName := (h o).hostName })
  let h := h.assign self (fun c => { c with homeUri := (h o).homeUri })
  let h := h.assign self (fun c => { c with staip := (h o).staip })
  let h := h.assign self (fun c => { c with staGateway := (h o).staGateway })
  let h := h.assign self (fun c => { c with staNetmask := (h o).staNetmask })
  let h := h.assign self (fun c => { c with dns1 := (h o).dns1 })
  let h := h.assign self (fun c => { c with dns2 := (h o).dns2 })
  (self, h)

/-- The macro values of the upstream `AutoConnectDefs.h`, used where a concrete
instance of the parameter `Defs` is needed. -/
def upstreamDefs : Defs where
  AUTOCONNECT_AP_IP := 0x01F4A8C0
  AUTOCONNECT_AP_GW := 0x01F4A8C0
  AUTOCONNECT_AP_NM := 0x00FFFFFF
  AUTOCONNECT_APID := "esp8266ap"
  AUTOCONNECT_PSK := "12345678"
  AUTOCONNECT_AP_CH := 1
  AC_IDENTIFIER_OFFSET := 0
  AUTOCONNECT_STARTUPTIME := 10
  AUTOCONNECT_HOMEURI := "/"

/-! ## Credential Store

`AutoConnectCredential.h` is included by the header (line 33) but its content
is not among the sources; the store is modelled from the specification
(sections 3, 4.1 and 6). -/

/-- Modelled from the spec: the Credential Record of section 3, {network name
(bounded string), passphrase (bounded string), BSSID (6 bytes), channel (small
integer)}.  `AutoConnectCredential` is missing from the sources.  Strings and
the BSSID are sequences of byte values. -/
structure CredentialRecord where
  ssid : List Nat
  passphrase : List Nat
  bssid : List Nat
  channel : Nat
deriving DecidableEq, Repr

/-- Modelled from the spec: the constants of the fixed-size record that the
specification leaves open, namely the bounds of the two bounded strings and the
value of the validity marker (missing: `AutoConnectCredential`). -/
structure StoreLayout where
  ssidMax : Nat
  passMax : Nat
  magic : Nat
deriving DecidableEq, Repr

/-- Modelled from the spec: the byte-addressable persistent storage that the
Credential Store reads and writes (missing: `AutoConnectCredential` and the
storage driver, an external collaborator).  `capacity` is the number of
addressable bytes, `cells` the byte held at each address. -/
structure Storage where
  capacity : Nat
  cells : Nat → Nat

/-- Modelled from the spec: the outcome of `save` in section 4.1,
`success | STORAGE_FULL | STORAGE_FAULT` (missing: `AutoConnectCredential`).
`STORAGE_FAULT` is the failure report of the byte-level driver; the driver is
modelled as reliable memory, which never reports it. -/
inductive SaveResult where
  | success
  | STORAGE_FULL
  | STORAGE_FAULT
deriving DecidableEq, Repr

/-- Modelled from the spec: the outcome of `load` in section 4.1,
`Record | NOT_FOUND` (missing: `AutoConnectCredential`). -/
inductive LoadResult where
  | found (r : CredentialRecord)
  | NOT_FOUND
deriving DecidableEq, Repr

/-- Modelled from the spec: a valid Credential Record (section 3; missing:
`AutoConnectCredential`).  Each string respects its bound and consists of
non-NUL byte values, the BSSID has exactly 6 bytes, and the channel fits the
one channel byte of the storage layout. -/
def CredentialRecord.valid (L : StoreLayout) (R : CredentialRecord) : Prop :=
  (R.ssid.length ≤ L.ssidMax ∧ ∀ b ∈ R.ssid, 0 < b ∧ b < 256) ∧
  (R.passphrase.length ≤ L.passMax ∧ ∀ b ∈ R.passphrase, 0 < b ∧ b < 256) ∧
  (R.bssid.length = 6 ∧ ∀ b ∈ R.bssid, b < 256) ∧
  R.channel < 256

instance (L : StoreLayout) (R : CredentialRecord) : Decidable (R.valid L) := by
  unfold CredentialRecord.valid
  infer_instance

/-- Modelled from the spec: storing one byte through the storage driver
(missing: the driver).  A cell holds a byte, so the value is reduced mod 256. -/
def Storage.write (st : Storage) (addr v : Nat) : Storage :=
  { st with cells := fun a => if a = addr then v % 256 else st.cells a }

/-- Modelled from the spec: storing consecutive bytes from `addr` upwards
(missing: the driver). -/
def Storage.writeBytes (st : Storage) (addr : Nat) : List Nat → Storage
  | [] => st
  | b :: bs => (st.write addr b).writeBytes (addr + 1) bs

/-- Modelled from the spec: reading `n` consecutive bytes from `addr` upwards
(missing: the driver). -/
def Storage.readBytes (st : Storage) (addr : Nat) : Nat → List Nat
  | 0 => []
  | n + 1 => st.cells addr :: st.readBytes (addr + 1) n

/-- Modelled from the spec: a field of exactly `n` bytes holding `bs`, padded
with NUL bytes (cut after `n` bytes if `bs` is longer), which is what makes the
record fixed-size (section 2; missing: `AutoConnectCredential`). -/
def fieldBytes (n : Nat) (bs : List Nat) : List Nat :=
  (bs ++ List.replicate n 0).take n

/-- Modelled from the spec: the string held in a NUL-padded field (missing:
`AutoConnectCredential`). -/
def fieldString (field : List Nat) : List Nat :=
  field.takeWhile (fun b => b != 0)

/-- Modelled from the spec: number of payload bytes of a record, that is
network-name bytes, passphrase bytes, 6 BSSID bytes and the channel byte
(section 6; missing: `AutoConnectCredential`). -/
def payloadSize (L : StoreLayout) : Nat := L.ssidMax + L.passMax + 6 + 1

/-- Modelled from the spec: size of a stored record, the payload followed by
the trailing validity marker (sections 4.1 and 6; missing:
`AutoConnectCredential`). -/
def recordSize (L : StoreLayout) : Nat := payloadSize L + 1

/-- Modelled from the spec: the payload bytes of a record in the order of the
storage layout of section 6 (missing: `AutoConnectCredential`). -/
def encodeRecord (L : StoreLayout) (R : CredentialRecord) : List Nat :=
  fieldBytes L.ssidMax R.ssid ++ (fieldBytes L.passMax R.passphrase ++
    (fieldBytes 6 R.bssid ++ fieldBytes 1 [R.channel]))

/-- Modelled from the spec: the record held by payload bytes (missing:
`AutoConnectCredential`). -/
def decodeRecord (L : StoreLayout) (bytes : List Nat) : CredentialRecord where
  ssid := fieldString (bytes.take L.ssidMax)
  passphrase := fieldString ((bytes.drop L.ssidMax).take L.passMax)
  bssid := (bytes.drop (L.ssidMax + L.passMax)).take 6
  channel := (bytes.drop (L.ssidMax + L.passMax + 6)).headD 0

/-- Modelled from the spec: `save(offset, Record)` of section 4.1 (missing:
`AutoConnectCredential`).  A record that does not fit between `offset` and the
end of the storage is refused with `STORAGE_FULL`; otherwise the payload is
written first and the trailing validity marker last. -/
def save (L : StoreLayout) (st : Storage) (offset : Nat) (R : CredentialRecord) :
    SaveResult × Storage :=
  if st.capacity < offset + recordSize L then (SaveResult.STORAGE_FULL, st)
  else
    let st := st.writeBytes offset (encodeRecord L R)
    let st := st.write (offset + payloadSize L) L.magic
    (SaveResult.success, st)

/-- Modelled from the spec: `load(offset)` of section 4.1 (missing:
`AutoConnectCredential`).  The record is read only when the slot lies inside
the storage and its validity marker is present; otherwise `NOT_FOUND`. -/
def load (L : StoreLayout) (st : Storage) (offset : Nat) : LoadResult :=
  if st.capacity < offset + recordSize L then LoadResult.NOT_FOUND
  else if st.cells (offset + payloadSize L) = L.magic % 256 then
    LoadResult.found (decodeRecord L (st.readBytes offset (payloadSize L)))
  else LoadResult.NOT_FOUND

/-- The layout used for concrete instances: the 32-byte SSID and 64-byte
password of the SDK's `struct station_config` (the type of `_credential`,
header line 242) and an arbitrary marker byte. -/
def sampleLayout : StoreLayout := ⟨32, 64, 0xAC⟩

/-- A blank storage of 512 bytes, every cell erased to `0xFF`. -/
def blankStorage : Storage := ⟨512, fun _ => 0xFF⟩

/-- A sample credential: network "home", passphrase "secret12", a BSSID and
channel 6. -/
def sampleRecord : CredentialRecord :=
  ⟨[104, 111, 109, 101], [115, 101, 99, 114, 101, 116, 49, 50], [0, 17, 34, 51, 68, 85], 6⟩

/-! ## Connection state machine

The header declares `begin`, `handleClient`, `end`, `_startDNSServer` and
`_stopPortal` (lines 165-169, 196-199) and the member `_dnsServer` (line 225);
their bodies are not among the sources.  The state machine is modelled from
sections 3, 4.2, 4.3 and 4.6 of the specification.  The policy flags it reads
are those of the `AutoConnectConfig` above. -/

/-- Modelled from the spec: the Connection State of section 3 (missing: the
implementation of class `AutoConnect`). -/
inductive ConnectionState where
  | IDLE
  | CONNECTING
  | CONNECTED
  | CONNECTION_FAILED
  | PORTAL_ACTIVE
  | DISCONNECTING
deriving DecidableEq, Repr

open ConnectionState

/-- Modelled from the spec: what the state machine of sections 4.2 and 4.3
owns (missing: the implementation of class `AutoConnect`).  `state` is the
current Connection State, `past` the states left so far (most recent first),
`dnsActive` tells whether `_dnsServer` holds a running DNS Redirector and
`apActive` whether the access point is up. -/
structure Portal where
  state : ConnectionState
  past : List ConnectionState
  dnsActive : Bool
  apActive : Bool
deriving DecidableEq, Repr

/-- Modelled from the spec: the machine before the first `begin`, in `IDLE`
with nothing running (missing: `AutoConnect::AutoConnect`). -/
def Portal.init : Portal := ⟨IDLE, [], false, false⟩

/-- Modelled from the spec: one Connection-State transition; the state left is
recorded (missing: the implementation of class `AutoConnect`). -/
def Portal.enter (p : Portal) (s : ConnectionState) : Portal :=
  { p with state := s, past := p.state :: p.past }

/-- Modelled from the spec: `_startDNSServer` starts the DNS Redirector
(section 4.3; missing: its body). -/
def _startDNSServer (p : Portal) : Portal := { p with dnsActive := true }

/-- Modelled from the spec: `_stopPortal` tears down the access point and the
DNS Redirector (sections 4.3 and 4.6 item 3; missing: its body). -/
def _stopPortal (p : Portal) : Portal := { p with dnsActive := false, apActive := false }

/-- Modelled from the spec: bringing up the portal, "the controller brings up
the access point ... and signals the Orchestrator to start the DNS Redirector"
(section 4.2; missing: the body of `begin`). -/
def risePortal (p : Portal) : Portal :=
  _startDNSServer ({ p with apActive := true }.enter PORTAL_ACTIVE)

/-- Modelled from the spec: a connection attempt (section 4.2; missing:
`_waitForConnect` and its callers).  The machine enters `CONNECTING`; the
attempt ends in `CONNECTED`, or in `CONNECTION_FAILED` (a timeout is a
failure), and a failure brings up the portal when the auto-rise policy is
enabled.  `reachable` is the outcome supplied by the radio. -/
def attemptConnect (cfg : AutoConnectConfig) (reachable : Bool) (p : Portal) : Portal :=
  let p := p.enter CONNECTING
  if reachable then p.enter CONNECTED
  else
    let p := p.enter CONNECTION_FAILED
    if cfg.autoRise then risePortal p else p

/-- Modelled from the spec: a device restart; the machine is back in `IDLE`
with the access point and the DNS Redirector down (section 4.2; missing: the
implementation of class `AutoConnect`). -/
def restart (p : Portal) : Portal := (_stopPortal p).enter IDLE

/-- Modelled from the spec: `begin` (section 4.2 "`IDLE -> CONNECTING` on
`begin`", section 4.6 item 1; missing: its body).  With `immediateStart` the
portal is brought up at once, otherwise a connection is attempted. -/
def begin (cfg : AutoConnectConfig) (reachable : Bool) (p : Portal) : Portal :=
  match p.state with
  | IDLE => if cfg.immediateStart then risePortal p else attemptConnect cfg reachable p
  | _ => p

/-- Modelled from the spec: what one processing tick finds to do (sections 4.2,
4.4 and 4.6 item 2; missing: the implementation of class `AutoConnect`):
nothing but polling, new credentials submitted through the Router (with the
outcome of the attempt), an explicit disconnect, or the portal's idle time-out
with the reset policy enabled. -/
inductive Request where
  | poll
  | connect (reachable : Bool)
  | disconnect
  | portalTimeout
deriving DecidableEq, Repr

/-- Modelled from the spec: `handleClient`, one processing tick (sections 4.2,
4.3 and 4.6 item 2; missing: its body).  Submitted credentials take
`PORTAL_ACTIVE` to `CONNECTING`, stopping the DNS Redirector on exit; an
explicit disconnect takes `CONNECTED` through `DISCONNECTING` to `IDLE`, by a
restart when auto-reset is enabled; the portal's idle time-out resets the
device. -/
def handleClient (cfg : AutoConnectConfig) (req : Request) (p : Portal) : Portal :=
  match p.state, req with
  | PORTAL_ACTIVE, Request.connect reachable => attemptConnect cfg reachable (_stopPortal p)
  | PORTAL_ACTIVE, Request.portalTimeout => restart p
  | CONNECTED, Request.disconnect =>
    let p := p.enter DISCONNECTING
    if cfg.autoReset then restart p else p.enter IDLE
  | _, _ => p

/-- Modelled from the spec: `end`, "tear down AP + DNS Redirector
deterministically and return to IDLE" (section 4.6 item 3; missing: its
body). -/
def end_ (p : Portal) : Portal := (_stopPortal p).enter IDLE

/-- Modelled from the spec: a call of the public interface by the host's main
loop (missing: the implementation of class `AutoConnect`). -/
inductive Call where
  | begin (reachable : Bool)
  | handleClient (req : Request)
  | end_
deriving DecidableEq, Repr

/-- Modelled from the spec: the effect of one call (missing: the
implementation of class `AutoConnect`). -/
def Portal.call (cfg : AutoConnectConfig) (p : Portal) : Call → Portal
  | Call.begin reachable => begin cfg reachable p
  | Call.handleClient req => handleClient cfg req p
  | Call.end_ => end_ p

/-- Modelled from the spec: the machine after a sequence of calls, started
from `Portal.init` (missing: the implementation of class `AutoConnect`). -/
def Portal.run (cfg : AutoConnectConfig) (calls : List Call) : Portal :=
  calls.foldl (Portal.call cfg) Portal.init

/-- A legal way into a state: `PORTAL_ACTIVE` is entered directly after
`CONNECTION_FAILED`, or straight from `IDLE` with `immediateStart` set; any
other state may be entered freely.  `newer` is the state entered, `older` the
state left. -/
def entryOk (cfg : AutoConnectConfig) (newer older : ConnectionState) : Prop :=
  newer = PORTAL_ACTIVE →
    older = CONNECTION_FAILED ∨ (older = IDLE ∧ cfg.immediateStart = true)

instance (cfg : AutoConnectConfig) (a b : ConnectionState) : Decidable (entryOk cfg a b) := by
  unfold entryOk
  infer_instance

/-- The invariant of the state machine: the DNS Redirector runs exactly in
`PORTAL_ACTIVE`, and every state on record was entered legally. -/
def Portal.inv (cfg : AutoConnectConfig) (p : Portal) : Prop :=
  List.Chain' (entryOk cfg) (p.state :: p.past) ∧
  (p.dnsActive = true ↔ p.state = PORTAL_ACTIVE)

/-! ## Request router

`_handleNotFound`, `_classifyHandle`, `_captivePortal` and `onNotFound` are
declared (header lines 185, 197, 200, 210) without bodies; the routing is
modelled from section 4.4 of the specification. -/

/-- Modelled from the spec: the exit-order tag of a Page Registry Entry, run
before or after the built-in processing (section 3; missing:
`AutoConnectAux.h`). -/
inductive AutoConnectExitOrder_t where
  | AC_EXIT_AHEAD
  | AC_EXIT_LATER
deriving DecidableEq, Repr

/-- Modelled from the spec: a Page Registry Entry {URI, handler reference,
exit-order tag} (section 3; missing: `AutoConnectAux.h`).  A handler is
referred to by its index in the host application's table of handlers. -/
structure PageEntry where
  uri : String
  handler : Nat
  order : AutoConnectExitOrder_t
deriving DecidableEq, Repr

/-- Modelled from the spec: the answers of the Router (section 4.4; missing:
the implementation of class `AutoConnect`): a built-in configuration page, a
registered extension page, a redirect to a location, the call of the
caller-supplied not-found handler, or the default minimal 404. -/
inductive Response where
  | builtinPage (uri : String)
  | extensionPage (entry : PageEntry)
  | redirect (location : String)
  | notFoundHandler (fn : Nat)
  | default404
deriving DecidableEq, Repr

/-- Modelled from the spec: what the Router consults (section 4.4; missing:
the implementation of class `AutoConnect`): the URIs of the built-in
configuration pages, the Page Registry, the Connection State, the URI of the
portal's home page and the handler registered with `onNotFound`, if any. -/
structure Router where
  builtinPages : List String
  registry : List PageEntry
  state : ConnectionState
  portalHome : String
  _notFoundHandler : Option Nat
deriving DecidableEq, Repr

/-- Modelled from the spec: `onNotFound` registers the caller-supplied
not-found handler (section 6; missing: its body). -/
def onNotFound (r : Router) (fn : Nat) : Router := { r with _notFoundHandler := some fn }

/-- Modelled from the spec: `_handleNotFound`, item 3 of section 4.4 (missing:
its body).  While the portal is active the answer is a redirect to the portal's
home page; otherwise the registered not-found handler, or a default 404. -/
def _handleNotFound (r : Router) : Response :=
  if r.state = PORTAL_ACTIVE then Response.redirect r.portalHome
  else
    match r._notFoundHandler with
    | some fn => Response.notFoundHandler fn
    | none => Response.default404

/-- Modelled from the spec: the classification of one inbound request, items
1 to 3 of section 4.4 in order (missing: the bodies of `_classifyHandle` and of
the web server's dispatch). -/
def dispatch (r : Router) (uri : String) : Response :=
  if uri ∈ r.builtinPages then Response.builtinPage uri
  else
    match r.registry.find? (fun e => e.uri == uri) with
    | some e => Response.extensionPage e
    | none => _handleNotFound r

/-- A request that matches neither a built-in configuration page nor a
registered extension page. -/
def unmatched (r : Router) (uri : String) : Prop :=
  uri ∉ r.builtinPages ∧ ∀ e ∈ r.registry, e.uri ≠ uri

instance (r : Router) (uri : String) : Decidable (unmatched r uri) := by
  unfold unmatched
  infer_instance

/-- A router with the built-in pages of the HTTP surface (section 6), one
extension page and no not-found handler. -/
def sampleRouter (state : ConnectionState) : Router where
  builtinPages := ["/_ac", "/_ac/config", "/_ac/connect", "/_ac/result", "/_ac/open",
    "/_ac/disc", "/_ac/reset", "/_ac/success", "/_ac/fail"]
  registry := [⟨"/hello", 0, AutoConnectExitOrder_t.AC_EXIT_AHEAD⟩]
  state := state
  portalHome := "/_ac"
  _notFoundHandler := none

/-! ## Signal quality

`_toWiFiQuality` is declared (header line 219) without a body; it is modelled
from section 4.2 of the specification. -/

/-- Modelled from the spec: `_toWiFiQuality`, "a discretized quality metric
derived from signal strength in dBm via fixed break points", a "monotonic step
function" (section 4.2; missing: its body).  The specification leaves the break
points open, so they are a parameter; the quality is the number of break points
that the signal strength reaches, which is the index of its band.  The
argument is converted to the declared parameter type `int32_t`. -/
def _toWiFiQuality (breakPoints : List Int) (rssi : Int) : Nat :=
  (breakPoints.filter (fun t => decide (t ≤ toInt32 rssi))).length

/-- Four break points, giving five bands. -/
def sampleBreakPoints : List Int := [-90, -80, -70, -60]

/-! ## Theorems -/

/-! ### Credential Store lemmas -/

theorem cells_write (st : Storage) (addr v a : Nat) :
    (st.write addr v).cells a = if a = addr then v % 256 else st.cells a := rfl

theorem capacity_write (st : Storage) (addr v : Nat) :
    (st.write addr v).capacity = st.capacity := rfl

theorem capacity_writeBytes (bs : List Nat) (st : Storage) (addr : Nat) :
    (st.writeBytes addr bs).capacity = st.capacity := by
  induction bs generalizing st addr with
  | nil => rfl
  | cons b bs ih => simp [Storage.writeBytes, ih, capacity_write]

theorem cells_writeBytes_lt (bs : List Nat) (st : Storage) (addr a : Nat) (h : a < addr) :
    (st.writeBytes addr bs).cells a = st.cells a := by
  induction bs generalizing st addr with
  | nil => rfl
  | cons b bs ih =>
    simp only [Storage.writeBytes]
    rw [ih _ _ (by omega), cells_write, if_neg (by omega)]

theorem cells_writeBytes_ge (bs : List Nat) (st : Storage) (addr a : Nat)
    (h : addr + bs.length ≤ a) : (st.writeBytes addr bs).cells a = st.cells a := by
  induction bs generalizing st addr with
  | nil => rfl
  | cons b bs ih =>
    simp only [Storage.writeBytes]
    simp only [List.length_cons] at h
    rw [ih _ _ (by omega), cells_write, if_neg (by omega)]

theorem readBytes_congr (n : Nat) (st st2 : Storage) (addr : Nat)
    (h : ∀ a, addr ≤ a → a < addr + n → st.cells a = st2.cells a) :
    st.readBytes addr n = st2.readBytes addr n := by
  induction n generalizing addr with
  | zero => rfl
  | succ n ih =>
    simp only [Storage.readBytes]
    rw [h addr (le_refl _) (by omega), ih (addr + 1) (fun a h1 h2 => h a (by omega) (by omega))]

theorem readBytes_writeBytes (bs : List Nat) (st : Storage) (addr : Nat) :
    (st.writeBytes addr bs).readBytes addr bs.length = bs.map (fun b => b % 256) := by
  induction bs generalizing st addr with
  | nil => rfl
  | cons b bs ih =>
    simp only [Storage.writeBytes, List.length_cons, Storage.readBytes, List.map_cons]
    rw [ih, cells_writeBytes_lt _ _ _ _ (by omega), cells_write, if_pos rfl]

theorem length_fieldBytes (n : Nat) (bs : List Nat) : (fieldBytes n bs).length = n := by
  simp [fieldBytes]

theorem fieldBytes_eq_pad (n : Nat) (bs : List Nat) (h : bs.length ≤ n) :
    fieldBytes n bs = bs ++ List.replicate (n - bs.length) 0 := by
  unfold fieldBytes
  rw [List.take_append_eq_append_take, List.take_of_length_le h, List.take_replicate]
  congr 2
  omega

theorem fieldString_fieldBytes (n : Nat) (bs : List Nat) (h : bs.length ≤ n)
    (hb : ∀ b ∈ bs, 0 < b ∧ b < 256) : fieldString (fieldBytes n bs) = bs := by
  rw [fieldBytes_eq_pad n bs h]
  unfold fieldString
  rw [List.takeWhile_append_of_pos, List.takeWhile_replicate]
  · simp
  · intro a ha
    have := (hb a ha).1
    simp
    omega

theorem fieldBytes_exact (n : Nat) (bs : List Nat) (h : bs.length = n) :
    fieldBytes n bs = bs := by
  rw [fieldBytes_eq_pad n bs (le_of_eq h)]
  simp [h]

theorem decodeRecord_encodeRecord (L : StoreLayout) (R : CredentialRecord)
    (hv : R.valid L) : decodeRecord L (encodeRecord L R) = R := by
  obtain ⟨⟨hs, hsb⟩, ⟨hp, hpb⟩, ⟨hl, _⟩, _⟩ := hv
  have e1 : (encodeRecord L R).take L.ssidMax = fieldBytes L.ssidMax R.ssid :=
    List.take_left' (length_fieldBytes _ _)
  have e2 : (encodeRecord L R).drop L.ssidMax =
      fieldBytes L.passMax R.passphrase ++ (fieldBytes 6 R.bssid ++ fieldBytes 1 [R.channel]) :=
    List.drop_left' (length_fieldBytes _ _)
  have e3 : (encodeRecord L R).drop (L.ssidMax + L.passMax) =
      fieldBytes 6 R.bssid ++ fieldBytes 1 [R.channel] := by
    rw [← List.drop_drop, e2]
    exact List.drop_left' (length_fieldBytes _ _)
  have e4 : (encodeRecord L R).drop (L.ssidMax + L.passMax + 6) = fieldBytes 1 [R.channel] := by
    rw [← List.drop_drop, e3]
    exact List.drop_left' (length_fieldBytes _ _)
  have d1 : (decodeRecord L (encodeRecord L R)).ssid = R.ssid := by
    simp only [decodeRecord, e1]
    exact fieldString_fieldBytes _ _ hs hsb
  have d2 : (decodeRecord L (encodeRecord L R)).passphrase = R.passphrase := by
    simp only [decodeRecord, e2]
    rw [List.take_left' (length_fieldBytes _ _)]
    exact fieldString_fieldBytes _ _ hp hpb
  have d3 : (decodeRecord L (encodeRecord L R)).bssid = R.bssid := by
    simp only [decodeRecord, e3]
    rw [List.take_left' (length_fieldBytes _ _)]
    exact fieldBytes_exact _ _ hl
  have d4 : (decodeRecord L (encodeRecord L R)).channel = R.channel := by
    simp only [decodeRecord, e4]
    rfl
  cases R
  simp only [CredentialRecord.mk.injEq] at *
  cases hdec : decodeRecord L (encodeRecord L _)
  simp only [hdec] at d1 d2 d3 d4
  simp [d1, d2, d3, d4]

theorem length_encodeRecord (L : StoreLayout) (R : CredentialRecord) :
    (encodeRecord L R).length = payloadSize L := by
  simp [encodeRecord, length_fieldBytes, payloadSize]
  omega

theorem encodeRecord_bytes (L : StoreLayout) (R : CredentialRecord) (hv : R.valid L) :
    (encodeRecord L R).map (fun b => b % 256) = encodeRecord L R := by
  obtain ⟨⟨_, hsb⟩, ⟨_, hpb⟩, ⟨_, hbb⟩, hc⟩ := hv
  have key : ∀ b ∈ encodeRecord L R, b % 256 = b := by
    intro b hb
    apply Nat.mod_eq_of_lt
    simp only [encodeRecord, fieldBytes, List.mem_append] at hb
    rcases hb with hb | hb | hb | hb
    all_goals
      have hb2 := List.mem_of_mem_take hb
      simp only [List.mem_append, List.mem_replicate, List.mem_singleton] at hb2
    · rcases hb2 with hb2 | hb2
      · exact (hsb b hb2).2
      · omega
    · rcases hb2 with hb2 | hb2
      · exact (hpb b hb2).2
      · omega
    · rcases hb2 with hb2 | hb2
      · exact hbb b hb2
      · omega
    · rcases hb2 with hb2 | hb2
      · omega
      · omega
  conv_rhs => rw [← List.map_id (encodeRecord L R)]
  exact List.map_congr_left (fun b hb => by simpa using key b hb)


/-! ### Claims on `AutoConnectConfig` -/

/-- C1: after the copy assignment `a = o`, each of the 22 data members of `a`
equals the corresponding member of `o` as it was before the call (so `a` as a
whole equals `o`: no declared member is left out), `o` itself is unchanged, and
the returned reference is `a`.  This holds for any two references, aliased or
not. -/
theorem C1_operator_assign_copies_every_member (h : Heap) (a o : Ref) :
    (((AutoConnectConfig.operator_assign h a o).2 a).apip = (h o).apip ∧
      ((AutoConnectConfig.operator_assign h a o).2 a).gateway = (h o).gateway ∧
      ((AutoConnectConfig.operator_assign h a o).2 a).netmask = (h o).netmask ∧
      ((AutoConnectConfig.operator_assign h a o).2 a).apid = (h o).apid ∧
      ((AutoConnectConfig.operator_assign h a o).2 a).psk = (h o).psk ∧
      ((AutoConnectConfig.operator_assign h a o).2 a).channel = (h o).channel ∧
      ((AutoConnectConfig.operator_assign h a o).2 a).hidden = (h o).hidden ∧
      ((AutoConnectConfig.operator_assign h a o).2 a).autoSave = (h o).autoSave ∧
      ((AutoConnectConfig.operator_assign h a o).2 a).bootUri = (h o).bootUri ∧
      ((AutoConnectConfig.operator_assign h a o).2 a).boundaryOffset = (h o).boundaryOffset ∧
      ((AutoConnectConfig.operator_assign h a o).2 a).uptime = (h o).uptime ∧
      ((AutoConnectConfig.operator_assign h a o).2 a).autoRise = (h o).autoRise ∧
      ((AutoConnectConfig.operator_assign h a o).2 a).autoReset = (h o).autoReset ∧
      ((AutoConnectConfig.operator_assign h a o).2 a).autoReconnect = (h o).autoReconnect ∧
      ((AutoConnectConfig.operator_assign h a o).2 a).immediateStart = (h o).immediateStart ∧
      ((AutoConnectConfig.operator_assign h a o).2 a).hostName = (h o).hostName ∧
      ((AutoConnectConfig.operator_assign h a o).2 a).homeUri = (h o).homeUri ∧
      ((AutoConnectConfig.operator_assign h a o).2 a).staip = (h o).staip ∧
      ((AutoConnectConfig.operator_assign h a o).2 a).staGateway = (h o).staGateway ∧
      ((AutoConnectConfig.operator_assign h a o).2 a).staNetmask = (h o).staNetmask ∧
      ((AutoConnectConfig.operator_assign h a o).2 a).dns1 = (h o).dns1 ∧
      ((AutoConnectConfig.operator_assign h a o).2 a).dns2 = (h o).dns2) ∧
    (AutoConnectConfig.operator_assign h a o).2 a = h o ∧
    (AutoConnectConfig.operator_assign h a o).2 o = h o ∧
    (AutoConnectConfig.operator_assign h a o).1 = a := by
  by_cases hao : a = o
  · subst hao
    simp [AutoConnectConfig.operator_assign, Heap.assign]
  · have hoa : ¬ o = a := fun e => hao e.symm
    simp [AutoConnectConfig.operator_assign, Heap.assign, hoa]

/-- C2: the constructor `AutoConnectConfig(ap, password, c)` yields `apid = ap`,
`psk = password` and `channel = c` for every `uint8_t` channel `c`; with the
channel argument omitted the channel is `AUTOCONNECT_AP_CH` (as a `uint8_t`),
and `AutoConnectConfig("Test-AP", "12345678")` has `apid = "Test-AP"` and
`psk = "12345678"`. -/
theorem C2_newAp_sets_apid_psk_channel (d : Defs) (ap password : String) (c : Nat)
    (hc : c < 256) :
    ((AutoConnectConfig.newAp d ap password c).apid = ap ∧
      (AutoConnectConfig.newAp d ap password c).psk = password ∧
      (AutoConnectConfig.newAp d ap password c).channel = c) ∧
    ((AutoConnectConfig.newApDefaultChannel d ap password).apid = ap ∧
      (AutoConnectConfig.newApDefaultChannel d ap password).psk = password ∧
      (AutoConnectConfig.newApDefaultChannel d ap password).channel =
        toUInt8 d.AUTOCONNECT_AP_CH) ∧
    ((AutoConnectConfig.newApDefaultChannel d "Test-AP" "12345678").apid = "Test-AP" ∧
      (AutoConnectConfig.newApDefaultChannel d "Test-AP" "12345678").psk = "12345678") := by
  refine ⟨⟨rfl, rfl, ?_⟩, ⟨rfl, rfl, rfl⟩, ⟨rfl, rfl⟩⟩
  show c % 2 ^ 8 = c
  exact Nat.mod_eq_of_lt (by omega)

/-- Witness of C2 at the access point "Test-AP" on channel 11. -/
theorem C2_newAp_sets_apid_psk_channel_witness :
    (11 : Nat) < 256 ∧
    (((AutoConnectConfig.newAp upstreamDefs "Test-AP" "12345678" 11).apid = "Test-AP" ∧
      (AutoConnectConfig.newAp upstreamDefs "Test-AP" "12345678" 11).psk = "12345678" ∧
      (AutoConnectConfig.newAp upstreamDefs "Test-AP" "12345678" 11).channel = 11) ∧
    ((AutoConnectConfig.newApDefaultChannel upstreamDefs "Test-AP" "12345678").apid = "Test-AP" ∧
      (AutoConnectConfig.newApDefaultChannel upstreamDefs "Test-AP" "12345678").psk =
        "12345678" ∧
      (AutoConnectConfig.newApDefaultChannel upstreamDefs "Test-AP" "12345678").channel =
        toUInt8 upstreamDefs.AUTOCONNECT_AP_CH) ∧
    ((AutoConnectConfig.newApDefaultChannel upstreamDefs "Test-AP" "12345678").apid = "Test-AP" ∧
      (AutoConnectConfig.newApDefaultChannel upstreamDefs "Test-AP" "12345678").psk =
        "12345678")) :=
  ⟨by decide, C2_newAp_sets_apid_psk_channel upstreamDefs "Test-AP" "12345678" 11 (by decide)⟩

/-- C6 as stated fails: with the upstream macro values, the configuration built
by the default constructor and the one built by
`AutoConnectConfig("Test-AP", "12345678", 1)` both have `autoReset` different
from `false`. -/
theorem C6_autoReset_not_false :
    (AutoConnectConfig.new upstreamDefs).autoReset ≠ false ∧
    (AutoConnectConfig.newAp upstreamDefs "Test-AP" "12345678" 1).autoReset ≠ false := by
  decide

/-- C6 (amended): the automatic-reset policy flag is on by default: a
configuration built by either constructor, for every argument, has `autoReset`
equal to `true`. -/
theorem C6_autoReset_true_by_default (d : Defs) (ap password : String) (c : Nat) :
    (AutoConnectConfig.new d).autoReset = true ∧
    (AutoConnectConfig.newAp d ap password c).autoReset = true :=
  ⟨rfl, rfl⟩

/-- C7: a configuration built by either constructor, for every argument, has
`immediateStart = false`, `autoRise = true`, `autoReconnect = false`,
`autoSave = AC_SAVECREDENTIAL_AUTO` and `bootUri = AC_ONBOOTURI_ROOT`. -/
theorem C7_boot_policy_defaults (d : Defs) (ap password : String) (c : Nat) :
    ((AutoConnectConfig.new d).immediateStart = false ∧
      (AutoConnectConfig.new d).autoRise = true ∧
      (AutoConnectConfig.new d).autoReconnect = false ∧
      (AutoConnectConfig.new d).autoSave = AC_SAVECREDENTIAL_AUTO ∧
      (AutoConnectConfig.new d).bootUri = AC_ONBOOTURI_ROOT) ∧
    ((AutoConnectConfig.newAp d ap password c).immediateStart = false ∧
      (AutoConnectConfig.newAp d ap password c).autoRise = true ∧
      (AutoConnectConfig.newAp d ap password c).autoReconnect = false ∧
      (AutoConnectConfig.newAp d ap password c).autoSave = AC_SAVECREDENTIAL_AUTO ∧
      (AutoConnectConfig.newAp d ap password c).bootUri = AC_ONBOOTURI_ROOT) :=
  ⟨⟨rfl, rfl, rfl, rfl, rfl⟩, ⟨rfl, rfl, rfl, rfl, rfl⟩⟩

/-- C8: the default constructor sets `apid` to the macro value
`AUTOCONNECT_APID` and `psk` to the macro value `AUTOCONNECT_PSK`, and takes the
access-point IP, gateway, netmask and channel from `AUTOCONNECT_AP_IP`,
`AUTOCONNECT_AP_GW`, `AUTOCONNECT_AP_NM` and `AUTOCONNECT_AP_CH`, each converted
to the type of the member (`IPAddress(uint32_t)`, `uint8_t`). -/
theorem C8_new_uses_macros (d : Defs) :
    (AutoConnectConfig.new d).apid = d.AUTOCONNECT_APID ∧
    (AutoConnectConfig.new d).psk = d.AUTOCONNECT_PSK ∧
    (AutoConnectConfig.new d).apip = IPAddress.ofUInt32 d.AUTOCONNECT_AP_IP ∧
    (AutoConnectConfig.new d).gateway = IPAddress.ofUInt32 d.AUTOCONNECT_AP_GW ∧
    (AutoConnectConfig.new d).netmask = IPAddress.ofUInt32 d.AUTOCONNECT_AP_NM ∧
    (AutoConnectConfig.new d).channel = toUInt8 d.AUTOCONNECT_AP_CH :=
  ⟨rfl, rfl, rfl, rfl, rfl, rfl⟩

/-- C10: the two constructors differ only in `apid`, `psk` and `channel`:
`AutoConnectConfig(ap, password, c)` is the default-constructed configuration
with these three members replaced by `ap`, `password` and `c`; the members
`hidden`, `hostName` and the five station overrides are `0`, `""` and `0`; and
`AutoConnectConfig(AUTOCONNECT_APID, AUTOCONNECT_PSK)` equals
`AutoConnectConfig()`. -/
theorem C10_constructors_differ_in_three_members (d : Defs) (ap password : String) (c : Nat)
    (hc : c < 256) :
    AutoConnectConfig.newAp d ap password c =
      { AutoConnectConfig.new d with apid := ap, psk := password, channel := c } ∧
    ((AutoConnectConfig.newAp d ap password c).hidden = 0 ∧
      (AutoConnectConfig.newAp d ap password c).hostName = "" ∧
      (AutoConnectConfig.newAp d ap password c).staip = ⟨0⟩ ∧
      (AutoConnectConfig.newAp d ap password c).staGateway = ⟨0⟩ ∧
      (AutoConnectConfig.newAp d ap password c).staNetmask = ⟨0⟩ ∧
      (AutoConnectConfig.newAp d ap password c).dns1 = ⟨0⟩ ∧
      (AutoConnectConfig.newAp d ap password c).dns2 = ⟨0⟩) ∧
    AutoConnectConfig.newApDefaultChannel d d.AUTOCONNECT_APID d.AUTOCONNECT_PSK =
      AutoConnectConfig.new d := by
  have hmod : toUInt8 c = c := Nat.mod_eq_of_lt (by omega)
  have hidem : toUInt8 (toUInt8 d.AUTOCONNECT_AP_CH) = toUInt8 d.AUTOCONNECT_AP_CH := by
    simp [toUInt8]
  refine ⟨?_, ⟨rfl, rfl, rfl, rfl, rfl, rfl, rfl⟩, ?_⟩
  · simp [AutoConnectConfig.newAp, AutoConnectConfig.new, hmod]
  · simp [AutoConnectConfig.newApDefaultChannel, AutoConnectConfig.newAp, AutoConnectConfig.new]

/-- Witness of C10 at the access point "Test-AP" on channel 6. -/
theorem C10_constructors_differ_in_three_members_witness :
    (6 : Nat) < 256 ∧
    (AutoConnectConfig.newAp upstreamDefs "Test-AP" "12345678" 6 =
      { AutoConnectConfig.new upstreamDefs with
        apid := "Test-AP", psk := "12345678", channel := 6 } ∧
    ((AutoConnectConfig.newAp upstreamDefs "Test-AP" "12345678" 6).hidden = 0 ∧
      (AutoConnectConfig.newAp upstreamDefs "Test-AP" "12345678" 6).hostName = "" ∧
      (AutoConnectConfig.newAp upstreamDefs "Test-AP" "12345678" 6).staip = ⟨0⟩ ∧
      (AutoConnectConfig.newAp upstreamDefs "Test-AP" "12345678" 6).staGateway = ⟨0⟩ ∧
      (AutoConnectConfig.newAp upstreamDefs "Test-AP" "12345678" 6).staNetmask = ⟨0⟩ ∧
      (AutoConnectConfig.newAp upstreamDefs "Test-AP" "12345678" 6).dns1 = ⟨0⟩ ∧
      (AutoConnectConfig.newAp upstreamDefs "Test-AP" "12345678" 6).dns2 = ⟨0⟩) ∧
    AutoConnectConfig.newApDefaultChannel upstreamDefs upstreamDefs.AUTOCONNECT_APID
        upstreamDefs.AUTOCONNECT_PSK =
      AutoConnectConfig.new upstreamDefs) :=
  ⟨by decide,
    C10_constructors_differ_in_three_members upstreamDefs "Test-AP" "12345678" 6 (by decide)⟩

/-! ### Claim on the Credential Store -/

theorem inv_init (cfg : AutoConnectConfig) : Portal.inv cfg Portal.init := by
  simp [Portal.inv, Portal.init]

theorem inv_enter (cfg : AutoConnectConfig) (p : Portal) (s : ConnectionState)
    (hp : List.Chain' (entryOk cfg) (p.state :: p.past)) (hs : s ≠ PORTAL_ACTIVE)
    (hd : p.dnsActive = false) : Portal.inv cfg (p.enter s) := by
  refine ⟨?_, ?_⟩
  · exact List.Chain'.cons (fun h => absurd h hs) hp
  · simp [Portal.enter, hd, hs]

theorem inv_risePortal (cfg : AutoConnectConfig) (p : Portal)
    (hp : List.Chain' (entryOk cfg) (p.state :: p.past))
    (hs : p.state = CONNECTION_FAILED ∨ (p.state = IDLE ∧ cfg.immediateStart = true)) :
    Portal.inv cfg (risePortal p) := by
  refine ⟨?_, ?_⟩
  · exact List.Chain'.cons (fun _ => hs) hp
  · simp [risePortal, _startDNSServer, Portal.enter]

theorem inv_attemptConnect (cfg : AutoConnectConfig) (reachable : Bool) (p : Portal)
    (hp : List.Chain' (entryOk cfg) (p.state :: p.past)) (hd : p.dnsActive = false) :
    Portal.inv cfg (attemptConnect cfg reachable p) := by
  have h1 := inv_enter cfg p CONNECTING hp (by decide) hd
  unfold attemptConnect
  simp only
  split
  · exact inv_enter cfg _ CONNECTED h1.1 (by decide) (by simpa [Portal.enter] using hd)
  · have h2 := inv_enter cfg (p.enter CONNECTING) CONNECTION_FAILED h1.1 (by decide)
      (by simpa [Portal.enter] using hd)
    split
    · exact inv_risePortal cfg _ h2.1 (Or.inl rfl)
    · exact h2

theorem inv_restart (cfg : AutoConnectConfig) (p : Portal)
    (hp : List.Chain' (entryOk cfg) (p.state :: p.past)) : Portal.inv cfg (restart p) :=
  inv_enter cfg (_stopPortal p) IDLE hp (by decide) rfl

theorem inv_begin (cfg : AutoConnectConfig) (reachable : Bool) (p : Portal)
    (h : Portal.inv cfg p) : Portal.inv cfg (begin cfg reachable p) := by
  unfold begin
  split
  · rename_i hst
    have hd : p.dnsActive = false := by
      have := h.2
      rw [hst] at this
      simpa using this
    split
    · rename_i himm
      exact inv_risePortal cfg p h.1 (Or.inr ⟨hst, himm⟩)
    · exact inv_attemptConnect cfg reachable p h.1 hd
  · exact h

theorem inv_handleClient (cfg : AutoConnectConfig) (req : Request) (p : Portal)
    (h : Portal.inv cfg p) : Portal.inv cfg (handleClient cfg req p) := by
  unfold handleClient
  split
  · exact inv_attemptConnect cfg _ (_stopPortal p) h.1 rfl
  · exact inv_restart cfg p h.1
  · rename_i hst
    have hd : p.dnsActive = false := by
      have := h.2
      rw [hst] at this
      simpa using this
    have h1 := inv_enter cfg p DISCONNECTING h.1 (by decide) hd
    simp only
    split
    · exact inv_restart cfg _ h1.1
    · exact inv_enter cfg _ IDLE h1.1 (by decide) (by simpa [Portal.enter] using hd)
  · exact h

theorem inv_call (cfg : AutoConnectConfig) (p : Portal) (c : Call) (h : Portal.inv cfg p) :
    Portal.inv cfg (p.call cfg c) := by
  cases c with
  | begin reachable => exact inv_begin cfg reachable p h
  | handleClient req => exact inv_handleClient cfg req p h
  | end_ => exact inv_restart cfg p h.1

theorem inv_foldl (cfg : AutoConnectConfig) (calls : List Call) (p : Portal)
    (h : Portal.inv cfg p) : Portal.inv cfg (calls.foldl (Portal.call cfg) p) := by
  induction calls generalizing p with
  | nil => exact h
  | cons c cs ih => exact ih _ (inv_call cfg p c h)

/-- The portal is reachable: with the default configuration, a `begin` that
finds no network passes through `CONNECTING` and `CONNECTION_FAILED` into
`PORTAL_ACTIVE` and starts the DNS Redirector. -/
theorem portal_reached_after_failed_begin :
    Portal.run (AutoConnectConfig.new upstreamDefs) [Call.begin false] =
      ⟨PORTAL_ACTIVE, [CONNECTION_FAILED, CONNECTING, IDLE], true, true⟩ := by
  decide

theorem find_none_of_unmatched (r : Router) (uri : String) (h : unmatched r uri) :
    r.registry.find? (fun e => e.uri == uri) = none := by
  rw [List.find?_eq_none]
  intro e he
  simpa using h.2 e he

/-- C5: a request whose URI matches neither a built-in configuration page nor a
registered extension page is answered, while the portal is active, by a redirect
to the portal's home page and not by a 404; while no portal is active the
handler registered with `onNotFound` is invoked if there is one, and otherwise
the default minimal 404 is returned. -/
theorem C5_unmatched_request (r : Router) (uri : String) (h : unmatched r uri) :
    (r.state = PORTAL_ACTIVE →
      dispatch r uri = Response.redirect r.portalHome ∧
      dispatch r uri ≠ Response.default404) ∧
    (r.state ≠ PORTAL_ACTIVE →
      (∀ fn, r._notFoundHandler = some fn → dispatch r uri = Response.notFoundHandler fn) ∧
      (∀ fn, dispatch (onNotFound r fn) uri = Response.notFoundHandler fn) ∧
      (r._notFoundHandler = none → dispatch r uri = Response.default404)) := by
  have hfind := find_none_of_unmatched r uri h
  have hb := h.1
  refine ⟨fun hs => ?_, fun hs => ⟨fun fn hfn => ?_, fun fn => ?_, fun hn => ?_⟩⟩
  · simp [dispatch, hb, hfind, _handleNotFound, hs]
  · simp [dispatch, hb, hfind, _handleNotFound, hs, hfn]
  · have hfind2 : (onNotFound r fn).registry.find? (fun e => e.uri == uri) = none := hfind
    have hb2 : uri ∉ (onNotFound r fn).builtinPages := hb
    have hs2 : (onNotFound r fn).state ≠ PORTAL_ACTIVE := hs
    simp [dispatch, hb2, hfind2, _handleNotFound, hs2]
    rfl
  · simp [dispatch, hb, hfind, _handleNotFound, hs, hn]

/-- Witness of C5: the request `/generate_204`, a captive-portal probe, at the
sample router while the portal is active. -/
theorem C5_unmatched_request_witness :
    unmatched (sampleRouter PORTAL_ACTIVE) "/generate_204" ∧
    (((sampleRouter PORTAL_ACTIVE).state = PORTAL_ACTIVE →
      dispatch (sampleRouter PORTAL_ACTIVE) "/generate_204" =
        Response.redirect (sampleRouter PORTAL_ACTIVE).portalHome ∧
      dispatch (sampleRouter PORTAL_ACTIVE) "/generate_204" ≠ Response.default404) ∧
    ((sampleRouter PORTAL_ACTIVE).state ≠ PORTAL_ACTIVE →
      (∀ fn, (sampleRouter PORTAL_ACTIVE)._notFoundHandler = some fn →
        dispatch (sampleRouter PORTAL_ACTIVE) "/generate_204" = Response.notFoundHandler fn) ∧
      (∀ fn, dispatch (onNotFound (sampleRouter PORTAL_ACTIVE) fn) "/generate_204" =
        Response.notFoundHandler fn) ∧
      ((sampleRouter PORTAL_ACTIVE)._notFoundHandler = none →
        dispatch (sampleRouter PORTAL_ACTIVE) "/generate_204" = Response.default404))) :=
  ⟨by decide, C5_unmatched_request (sampleRouter PORTAL_ACTIVE) "/generate_204" (by decide)⟩

/-! ### Claim on the signal quality -/

theorem toInt32_of_inRange (a : Int) (h1 : -2 ^ 31 ≤ a) (h2 : a < 2 ^ 31) : toInt32 a = a := by
  unfold toInt32
  rw [Int.emod_eq_of_lt (by omega) (by omega)]
  omega

theorem length_filter_le_mono (l : List Int) (a b : Int) (hab : a ≤ b) :
    (l.filter (fun t => decide (t ≤ a))).length ≤ (l.filter (fun t => decide (t ≤ b))).length := by
  induction l with
  | nil => simp
  | cons t ts ih =>
    by_cases hta : t ≤ a
    · have htb : t ≤ b := le_trans hta hab
      simp [List.filter_cons, hta, htb, ih]
    · by_cases htb : t ≤ b
      · simp [List.filter_cons, hta, htb]
        omega
      · simp [List.filter_cons, hta, htb, ih]

/-- C9: `_toWiFiQuality` is monotonic in the signal strength: for all `int32`
values `a ≤ b`, `_toWiFiQuality(a) ≤ _toWiFiQuality(b)`; and every result is one
of the band indices `0 .. n`, where `n` is the number of break points. -/
theorem C9_toWiFiQuality_monotonic (breakPoints : List Int) (a b : Int)
    (ha : -2 ^ 31 ≤ a) (hb : b < 2 ^ 31) (hab : a ≤ b) :
    _toWiFiQuality breakPoints a ≤ _toWiFiQuality breakPoints b ∧
    (∀ rssi : Int, _toWiFiQuality breakPoints rssi ∈ Finset.range (breakPoints.length + 1)) := by
  refine ⟨?_, fun rssi => ?_⟩
  · unfold _toWiFiQuality
    rw [toInt32_of_inRange a ha (by omega), toInt32_of_inRange b (by omega) hb]
    exact length_filter_le_mono breakPoints a b hab
  · rw [Finset.mem_range]
    unfold _toWiFiQuality
    exact Nat.lt_succ_of_le (List.length_filter_le _ _)

/-- Witness of C9 at -85 dBm and -65 dBm with the sample break points. -/
theorem C9_toWiFiQuality_monotonic_witness :
    (-2 ^ 31 : Int) ≤ -85 ∧ (-65 : Int) < 2 ^ 31 ∧ (-85 : Int) ≤ -65 ∧
    (_toWiFiQuality sampleBreakPoints (-85) ≤ _toWiFiQuality sampleBreakPoints (-65) ∧
    (∀ rssi : Int,
      _toWiFiQuality sampleBreakPoints rssi ∈ Finset.range (sampleBreakPoints.length + 1))) :=
  ⟨by decide, by decide, by decide,
    C9_toWiFiQuality_monotonic sampleBreakPoints (-85) (-65) (by decide) (by decide) (by decide)⟩

end AutoConnect
